import Mathlib

/-
Shallow embedding of internal/server/device/device_utils_infiniband.go
from the incus repository.

External collaborators are modelled as explicit oracle parameters:
netlink link control calls (NetworkSetDevMAC, NetworkGetDevMAC,
Link.SetNodeGUID, Link.SetPortGUID), the per-VF sysfs GUID reads, and
unixDeviceSetup.  Go maps are modelled as association lists (for the
device map, where exact contents matter) or as total functions with ""
as the absent value (for the volatile store, matching Go map lookup
semantics).  Machine integers that matter (the uint32 bound of
strconv.ParseUint) are modelled as Nat with an explicit bound.
-/

set_option autoImplicit false

/-- Error value of a fallible Go call, carrying its message text. -/
structure GoErr where
  msg : String
deriving DecidableEq, Repr

deriving instance DecidableEq for Except

/-- Hexadecimal digit test matching the character class accepted by the
Go net package hex converter (0-9, a-f, A-F). -/
def isHexDigit (c : Char) : Bool :=
  c.isDigit || (decide ('a' ≤ c) && decide (c ≤ 'f')) || (decide ('A' ≤ c) && decide (c ≤ 'F'))

/-- Groups of two hex digits separated by the given separator character,
exactly as consumed by the colon/dash branch of Go net.ParseMAC: the final
group has no trailing separator. -/
def hexPairsSep (sep : Char) : List Char → Bool
  | a :: b :: rest =>
    match rest with
    | [] => isHexDigit a && isHexDigit b
    | c :: rest2 => isHexDigit a && isHexDigit b && (c == sep) && hexPairsSep sep rest2
  | _ => false

/-- Groups of four hex digits separated by dots, as consumed by the dot
branch of Go net.ParseMAC. -/
def hexQuadsDot : List Char → Bool
  | a :: b :: c :: d :: rest =>
    match rest with
    | [] => isHexDigit a && isHexDigit b && isHexDigit c && isHexDigit d
    | e :: rest2 =>
      isHexDigit a && isHexDigit b && isHexDigit c && isHexDigit d && (e == '.') &&
        hexQuadsDot rest2
  | _ => false

/-- Success predicate of Go net.ParseMAC: length at least 14; either the
colon/dash format (two hex digits per byte, a consistent separator taken
from position 2, and 6, 8 or 20 bytes) or the dot format (four hex digits
per group, 6, 8 or 20 bytes). -/
def goParseMACOk (s : String) : Bool :=
  let cs := s.data
  let n := cs.length
  if n < 14 then false
  else if cs.getD 2 ' ' == ':' || cs.getD 2 ' ' == '-' then
    decide ((n + 1) % 3 = 0) &&
      (decide ((n + 1) / 3 = 6) || decide ((n + 1) / 3 = 8) || decide ((n + 1) / 3 = 20)) &&
      hexPairsSep (cs.getD 2 ' ') cs
  else if cs.getD 4 ' ' == '.' then
    decide ((n + 1) % 5 = 0) &&
      (decide (2 * (n + 1) / 5 = 6) || decide (2 * (n + 1) / 5 = 8) ||
        decide (2 * (n + 1) / 5 = 20)) &&
      hexQuadsDot cs
  else false

/-- Test used by strings.ContainsAny(value, "-.") in the validators. -/
def containsDashDot (s : String) : Bool :=
  s.data.any (fun c => c == '-' || c == '.')

/-- Embedding of infinibandValidMAC: accepts a value exactly when
net.ParseMAC succeeds, the length is 23 or 59, and no dash or dot occurs. -/
def infinibandValidMAC (value : String) : Except GoErr Unit :=
  if !goParseMACOk value || (value.length != 23 && value.length != 59) ||
      containsDashDot value then
    .error ⟨"Invalid value, must be either 8 or 20 bytes of hex separated by colons"⟩
  else
    .ok ()

/-- Embedding of infinibandValidGUID: accepts a value exactly when
net.ParseMAC succeeds, the length is 23, and no dash or dot occurs. -/
def infinibandValidGUID (value : String) : Except GoErr Unit :=
  if !goParseMACOk value || value.length != 23 || containsDashDot value then
    .error ⟨"Invalid value, must be 8 bytes of hex separated by colons"⟩
  else
    .ok ()

/-- Helper translating the Bool guard of infinibandValidMAC into its
propositional form. -/
theorem validMAC_guard_false_iff (value : String) :
    (!goParseMACOk value || (value.length != 23 && value.length != 59) ||
        containsDashDot value) = false ↔
      (goParseMACOk value = true ∧ (value.length = 23 ∨ value.length = 59) ∧
        containsDashDot value = false) := by
  simp only [Bool.or_eq_false_iff, Bool.and_eq_false_iff, Bool.not_eq_false', bne_eq_false_iff_eq]
  constructor
  · rintro ⟨⟨h1, h2⟩, h3⟩
    exact ⟨h1, by tauto, h3⟩
  · rintro ⟨h1, h2, h3⟩
    exact ⟨⟨h1, by tauto⟩, h3⟩

/-- Helper translating the Bool guard of infinibandValidGUID into its
propositional form. -/
theorem validGUID_guard_false_iff (value : String) :
    (!goParseMACOk value || value.length != 23 || containsDashDot value) = false ↔
      (goParseMACOk value = true ∧ value.length = 23 ∧ containsDashDot value = false) := by
  simp only [Bool.or_eq_false_iff, Bool.not_eq_false', bne_eq_false_iff_eq]
  tauto

/-- Helper: an if-then-else returning ok in the else branch equals ok exactly
when the Bool guard is false. -/
theorem ite_error_ok_iff (b : Bool) (e : GoErr) :
    (if b then (Except.error e : Except GoErr Unit) else Except.ok ()) = Except.ok () ↔
      b = false := by
  cases b <;> simp

/-- C6: ValidateHardwareAddress (infinibandValidMAC) succeeds if and only if
the value parses as a generic hex-pair address (net.ParseMAC), its length is
exactly 23 or 59 characters, and it contains no dash or dot characters. -/
theorem infinibandValidMAC_iff (value : String) :
    infinibandValidMAC value = Except.ok () ↔
      (goParseMACOk value = true ∧ (value.length = 23 ∨ value.length = 59) ∧
        containsDashDot value = false) := by
  unfold infinibandValidMAC
  rw [ite_error_ok_iff]
  exact validMAC_guard_false_iff value

/-- Witness for infinibandValidMAC_iff at a concrete long-form address. -/
theorem infinibandValidMAC_iff_witness :
    infinibandValidMAC "a0:00:0f:c0:fe:80:00:00:00:00:00:00:4a:c8:f9:1b:aa:57:ef:19" =
      Except.ok () :=
  (infinibandValidMAC_iff "a0:00:0f:c0:fe:80:00:00:00:00:00:00:4a:c8:f9:1b:aa:57:ef:19").mpr
    ⟨by decide, Or.inr (by decide), by decide⟩

/-- C7: ValidateGUID (infinibandValidGUID) succeeds if and only if the value
parses as a generic hex-pair address, has length exactly 23, and contains no
dash or dot; consequently every value accepted by infinibandValidGUID is also
accepted by infinibandValidMAC, while a 59-character value accepted by
infinibandValidMAC is rejected by infinibandValidGUID. -/
theorem infinibandValidGUID_spec (value : String) :
    (infinibandValidGUID value = Except.ok () ↔
      (goParseMACOk value = true ∧ value.length = 23 ∧ containsDashDot value = false)) ∧
    (infinibandValidGUID value = Except.ok () → infinibandValidMAC value = Except.ok ()) ∧
    (value.length = 59 → infinibandValidMAC value = Except.ok () →
      infinibandValidGUID value ≠ Except.ok ()) := by
  have hguid : infinibandValidGUID value = Except.ok () ↔
      (goParseMACOk value = true ∧ value.length = 23 ∧ containsDashDot value = false) := by
    unfold infinibandValidGUID
    rw [ite_error_ok_iff]
    exact validGUID_guard_false_iff value
  refine ⟨hguid, ?_, ?_⟩
  · intro h
    rcases hguid.mp h with ⟨h1, h2, h3⟩
    exact (infinibandValidMAC_iff value).mpr ⟨h1, Or.inl h2, h3⟩
  · intro h59 _ hguidOk
    rcases hguid.mp hguidOk with ⟨_, h23, _⟩
    rw [h59] at h23
    exact absurd h23 (by decide)

/-- Witness for infinibandValidGUID_spec at a concrete 23-character GUID. -/
theorem infinibandValidGUID_spec_witness :
    infinibandValidMAC "4a:c8:f9:1b:aa:57:ef:19" = Except.ok () :=
  (infinibandValidGUID_spec "4a:c8:f9:1b:aa:57:ef:19").2.1 (by decide)

example : goParseMACOk "4a:c8:f9:1b:aa:57:ef:19" = true := by decide
example : goParseMACOk "a0:00:0f:c0:fe:80:00:00:00:00:00:00:4a:c8:f9:1b:aa:57:ef:19" = true := by
  decide
example : goParseMACOk "4a-c8-f9-1b-aa-57-ef-19" = true := by decide
example : goParseMACOk "4a:c8:f9" = false := by decide
example : infinibandValidMAC "4a:c8:f9:1b:aa:57:ef:19" = .ok () := by decide
example : infinibandValidMAC "4a-c8-f9-1b-aa-57-ef-19" = .error
    ⟨"Invalid value, must be either 8 or 20 bytes of hex separated by colons"⟩ := by decide
example : infinibandValidGUID "4a:c8:f9:1b:aa:57:ef:19" = .ok () := by decide
example : infinibandValidGUID
    "a0:00:0f:c0:fe:80:00:00:00:00:00:00:4a:c8:f9:1b:aa:57:ef:19" = .error
    ⟨"Invalid value, must be 8 bytes of hex separated by colons"⟩ := by decide

/-
Data model of the host network inventory (api.ResourcesNetwork fragment),
restricted to the fields read by infinibandDevices and
infinibandAddDevices.
-/

/-- InfiniBand payload of a port: the three optional sub-interface names
(empty string means unset, matching the Go zero value). -/
structure PortIBNames where
  IsSMName : String
  MADName : String
  VerbName : String
deriving DecidableEq, Repr

/-- A network card port (api.ResourcesNetworkCardPort fragment). -/
structure CardPort where
  ID : String
  Protocol : String
  Port : Nat
  Infiniband : Option PortIBNames
deriving DecidableEq, Repr

/-- A virtual function of an SR-IOV card. -/
structure CardVF where
  Ports : List CardPort
deriving DecidableEq, Repr

/-- The SR-IOV descriptor of a card. -/
structure CardSRIOV where
  VFs : List CardVF
deriving DecidableEq, Repr

/-- A network card. -/
structure NetworkCard where
  Ports : List CardPort
  SRIOV : Option CardSRIOV
deriving DecidableEq, Repr

/-- The host network inventory. -/
structure ResourcesNetwork where
  Cards : List NetworkCard
deriving DecidableEq, Repr

/-- Go map read ibDevs[k] on a map modelled as an association list. -/
def ibLookup (k : String) : List (String × CardPort) → Option CardPort
  | [] => none
  | (a, v) :: rest => if k = a then some v else ibLookup k rest

/-- Replace the value stored under key k (used by the present-key branch of
the Go map write). -/
def ibReplace (k : String) (v : CardPort) : List (String × CardPort) →
    List (String × CardPort)
  | [] => []
  | (a, b) :: rest =>
    if a = k then (k, v) :: ibReplace k v rest else (a, b) :: ibReplace k v rest

/-- Go map write ibDevs[k] = v on a map modelled as an association list:
replace the value when the key is present, append otherwise. -/
def ibInsert (m : List (String × CardPort)) (k : String) (v : CardPort) :
    List (String × CardPort) :=
  if (ibLookup k m).isSome then ibReplace k v m else m ++ [(k, v)]

/-- Lookup after the replace branch of ibInsert. -/
theorem ibLookup_ibReplace (m : List (String × CardPort)) (k k2 : String) (v : CardPort) :
    ibLookup k2 (ibReplace k v m) =
      if k2 = k then (if (ibLookup k m).isSome then some v else none) else ibLookup k2 m := by
  induction m with
  | nil => by_cases h : k2 = k <;> simp [h, ibLookup, ibReplace]
  | cons hd tl ih =>
    obtain ⟨a, b⟩ := hd
    by_cases hak : a = k
    · subst hak
      by_cases hk2 : k2 = a <;> simp [ibLookup, ibReplace, hk2, ih]
    · have hka : ¬ k = a := fun h => hak h.symm
      by_cases hk2 : k2 = a
      · subst hk2
        simp [ibLookup, ibReplace, hak, hka]
      · by_cases hk : k2 = k
        · subst hk
          simp [ibLookup, ibReplace, hak, hk2, ih, hka]
        · simp [ibLookup, ibReplace, hak, hk2, ih, hk, hka]

/-- Lookup after the append branch of ibInsert. -/
theorem ibLookup_append_single (m : List (String × CardPort)) (k k2 : String) (v : CardPort)
    (h : ibLookup k m = none) :
    ibLookup k2 (m ++ [(k, v)]) = if k2 = k then some v else ibLookup k2 m := by
  induction m with
  | nil => by_cases hk : k2 = k <;> simp [ibLookup, hk]
  | cons hd tl ih =>
    obtain ⟨a, b⟩ := hd
    simp only [ibLookup, List.cons_append] at h ⊢
    by_cases hka : k = a
    · simp [hka] at h
    · rw [if_neg hka] at h
      by_cases h2a : k2 = a
      · have hk2k : ¬ k2 = k := fun hc => hka ((hc.symm.trans h2a : k = a))
        have hank : ¬ a = k := fun hc => hka hc.symm
        simp [h2a, hk2k, hank]
      · rw [if_neg h2a, if_neg h2a]
        exact ih h

/-- Lookup after ibInsert: the inserted key maps to the inserted value, every
other key is unchanged. -/
theorem ibLookup_ibInsert (m : List (String × CardPort)) (k k2 : String) (v : CardPort) :
    ibLookup k2 (ibInsert m k v) = if k2 = k then some v else ibLookup k2 m := by
  unfold ibInsert
  split
  next hsome =>
    rw [ibLookup_ibReplace]
    by_cases hk : k2 = k
    · simp [hk, hsome]
    · simp [hk]
  next hnone =>
    have hn : ibLookup k m = none := by
      cases hval : ibLookup k m
      · rfl
      · exact absurd (by simp [hval]) hnone
    exact ibLookup_append_single m k k2 v hn

/-
Embedding of infinibandDevices.  The Go function scans every card: first the
direct card ports (adding any InfiniBand port whose ID equals the parent),
then — when the card has an SR-IOV descriptor — looks the parent up in the
accumulated map (parentDev, parentIsPF := ibDevs[parent]) and scans every
port of every VF with that snapshot of the lookup.
-/

/-- Filter applied to one VF port: keep InfiniBand ports and, when the parent
was found in the map (parentIsPF), require the same physical port number as
the found entry, otherwise require the ID to equal the parent exactly. -/
def vfKeep (pe : Option CardPort) (parent : String) (port : CardPort) : Bool :=
  port.Protocol == "infiniband" &&
    (match pe with
     | some parentDev => parentDev.Port == port.Port
     | none => port.ID == parent)

/-- Scan of the ports of one VF. -/
def scanVFPorts (pe : Option CardPort) (parent : String)
    (m : List (String × CardPort)) (ports : List CardPort) : List (String × CardPort) :=
  ports.foldl (fun acc port => if vfKeep pe parent port then ibInsert acc port.ID port else acc) m

/-- Scan of all VFs of one card, with the parent lookup snapshot pe. -/
def scanVFs (pe : Option CardPort) (parent : String)
    (m : List (String × CardPort)) (vfs : List CardVF) : List (String × CardPort) :=
  vfs.foldl (fun acc vf => scanVFPorts pe parent acc vf.Ports) m

/-- Scan of the direct (physical function) ports of one card. -/
def scanCardPorts (parent : String) (m : List (String × CardPort))
    (ports : List CardPort) : List (String × CardPort) :=
  ports.foldl
    (fun acc port =>
      if port.Protocol == "infiniband" && port.ID == parent then
        ibInsert acc port.ID port
      else acc)
    m

/-- Processing of one card: direct ports first, then, if SR-IOV is present,
the VF scan keyed off the accumulated-map lookup of the parent. -/
def processCard (parent : String) (m : List (String × CardPort)) (card : NetworkCard) :
    List (String × CardPort) :=
  let m1 := scanCardPorts parent m card.Ports
  match card.SRIOV with
  | none => m1
  | some sr => scanVFs (ibLookup parent m1) parent m1 sr.VFs

/-- Embedding of infinibandDevices: fold processCard over all cards starting
from the empty map. -/
def infinibandDevices (nics : ResourcesNetwork) (parent : String) :
    List (String × CardPort) :=
  nics.Cards.foldl (processCard parent) []

/-- Example inventory of C2: one card with PF p1 on physical port 1 and two
VFs, v1 on physical port 1 and v2 on physical port 2. -/
def pfP1 : CardPort := ⟨"p1", "infiniband", 1, none⟩

/-- VF v1 of the example inventory, physical port 1. -/
def exV1 : CardPort := ⟨"v1", "infiniband", 1, none⟩

/-- VF v2 of the example inventory, physical port 2. -/
def exV2 : CardPort := ⟨"v2", "infiniband", 2, none⟩

/-- The single-card example inventory of C2. -/
def exampleInv : ResourcesNetwork :=
  ⟨[⟨[pfP1], some ⟨[⟨[exV1]⟩, ⟨[exV2]⟩]⟩⟩]⟩

/-- First card of the two-card counterexample inventory: no direct ports, one
VF named v2 on physical port 2. -/
def cxV2 : CardPort := ⟨"v2", "infiniband", 2, none⟩

/-- Unrelated VF w on the second card of the counterexample inventory, also
on physical port 2. -/
def cxW : CardPort := ⟨"w", "infiniband", 2, none⟩

/-- Two-card counterexample inventory: neither card has any direct
(physical-function) port; each card has one VF. -/
def twoCardInv : ResourcesNetwork :=
  ⟨[⟨[], some ⟨[⟨[cxV2]⟩]⟩⟩, ⟨[], some ⟨[⟨[cxW]⟩]⟩⟩]⟩

example : infinibandDevices exampleInv "p1" = [("p1", pfP1), ("v1", exV1)] := by decide
example : infinibandDevices exampleInv "v2" = [("v2", exV2)] := by decide
example : infinibandDevices twoCardInv "v2" = [("v2", cxV2), ("w", cxW)] := by decide

/-- Any entry found after scanning the ports of one VF either was already in
the map or satisfies the VF filter for the snapshot pe of the parent lookup. -/
theorem scanVFPorts_lookup_some (pe : Option CardPort) (parent : String)
    (ports : List CardPort) :
    ∀ (m : List (String × CardPort)) (k : String) (p : CardPort),
      ibLookup k (scanVFPorts pe parent m ports) = some p →
      ibLookup k m = some p ∨ vfKeep pe parent p = true := by
  induction ports with
  | nil => intro m k p h; exact Or.inl h
  | cons port rest ih =>
    intro m k p h
    simp only [scanVFPorts, List.foldl_cons] at h
    rcases ih _ k p h with hm | hkeep
    · by_cases hk : vfKeep pe parent port = true
      · rw [if_pos hk, ibLookup_ibInsert] at hm
        by_cases hkeq : k = port.ID
        · rw [if_pos hkeq] at hm
          exact Or.inr (Option.some.inj hm ▸ hk)
        · rw [if_neg hkeq] at hm
          exact Or.inl hm
      · rw [if_neg hk] at hm
        exact Or.inl hm
    · exact Or.inr hkeep

/-- Any entry found after scanning all VFs of a card either was already in
the map or satisfies the VF filter for the snapshot pe of the parent lookup. -/
theorem scanVFs_lookup_some (pe : Option CardPort) (parent : String) (vfs : List CardVF) :
    ∀ (m : List (String × CardPort)) (k : String) (p : CardPort),
      ibLookup k (scanVFs pe parent m vfs) = some p →
      ibLookup k m = some p ∨ vfKeep pe parent p = true := by
  induction vfs with
  | nil => intro m k p h; exact Or.inl h
  | cons vf rest ih =>
    intro m k p h
    simp only [scanVFs, List.foldl_cons] at h
    rcases ih _ k p h with hm | hkeep
    · exact scanVFPorts_lookup_some pe parent vf.Ports m k p hm
    · exact Or.inr hkeep

/-- C2 counterexample: in the two-card inventory twoCardInv no card has any
direct (physical-function) port, so the parent "v2" is never found as a PF
port on a card; yet the result for parent "v2" contains the VF "w" of the
second card, whose identifier differs from the parent.  The code decides
parentIsPF by looking the parent up in the accumulated result map, so the VF
"v2" recorded from the first card makes the second card treat the parent as
a PF and admit its VF "w" by physical port number. -/
theorem infinibandDevices_parentIsPF_counterexample :
    twoCardInv.Cards.all (fun c => c.Ports.isEmpty) = true ∧
    ibLookup "w" (infinibandDevices twoCardInv "v2") = some cxW ∧
    cxW.ID ≠ "v2" := by
  refine ⟨by decide, by decide, by decide⟩

/-- C2 amended: the VF filter is keyed off the accumulated result map, not
off the PF ports of the card alone.  When the VF scan of a card starts, the
parent is looked up in the map accumulated so far (the direct ports of this
card matching the parent plus every entry recorded from earlier cards); a VF
port is added only when it is InfiniBand and, if that lookup found an entry,
its physical port number equals the port number of the found entry, and if
the lookup found
nothing, its identifier equals the parent exactly.  The concrete examples of
the claim stand: for the single-card inventory with PF p1 (port 1) and VFs
v1 (port 1), v2 (port 2), parent "p1" yields exactly the entries p1 and v1,
and parent "v2" yields exactly the entry v2. -/
theorem infinibandDevices_matcher_amended :
    (∀ (pe : Option CardPort) (parent : String) (m : List (String × CardPort))
        (vfs : List CardVF) (k : String) (p : CardPort),
        ibLookup k (scanVFs pe parent m vfs) = some p →
        ibLookup k m = some p ∨ vfKeep pe parent p = true) ∧
    infinibandDevices exampleInv "p1" = [("p1", pfP1), ("v1", exV1)] ∧
    infinibandDevices exampleInv "v2" = [("v2", exV2)] := by
  refine ⟨?_, by decide, by decide⟩
  intro pe parent m vfs k p h
  exact scanVFs_lookup_some pe parent vfs m k p h

/-- Witness applying infinibandDevices_matcher_amended at a concrete scan. -/
theorem infinibandDevices_matcher_amended_witness :
    ibLookup "v2" ([] : List (String × CardPort)) = some cxV2 ∨
      vfKeep none "v2" cxV2 = true :=
  infinibandDevices_matcher_amended.1 none "v2" [] [⟨[cxV2]⟩] "v2" cxV2 (by decide)

/-
Embedding of infinibandAddDevices.  unixDeviceSetup is modelled as an oracle
keyed by the only varying argument, the source path of the device; the pair
returned carries the overall result and the list of setup calls issued, in
order.
-/

/-- Verbs step of infinibandAddDevices: one setup call when VerbName is set. -/
def addVerbDev (setup : String → Except GoErr Unit) (names : PortIBNames)
    (calls : List String) : Except GoErr Unit × List String :=
  if names.VerbName != "" then
    match setup ("/dev/infiniband/" ++ names.VerbName) with
    | .error e => (.error e, calls ++ ["/dev/infiniband/" ++ names.VerbName])
    | .ok _ => (.ok (), calls ++ ["/dev/infiniband/" ++ names.VerbName])
  else (.ok (), calls)

/-- Management-datagram step of infinibandAddDevices, continuing with the
verbs step on success. -/
def addMADDev (setup : String → Except GoErr Unit) (names : PortIBNames)
    (calls : List String) : Except GoErr Unit × List String :=
  if names.MADName != "" then
    match setup ("/dev/infiniband/" ++ names.MADName) with
    | .error e => (.error e, calls ++ ["/dev/infiniband/" ++ names.MADName])
    | .ok _ => addVerbDev setup names (calls ++ ["/dev/infiniband/" ++ names.MADName])
  else addVerbDev setup names calls

/-- Embedding of infinibandAddDevices: reject a port with no InfiniBand
payload, then do one setup call per non-empty sub-interface name in the order
subnet manager, management datagram, verbs, stopping at the first error. -/
def infinibandAddDevices (setup : String → Except GoErr Unit) (ibDev : CardPort) :
    Except GoErr Unit × List String :=
  match ibDev.Infiniband with
  | none => (.error ⟨"No infiniband devices supplied"⟩, [])
  | some names =>
    if names.IsSMName != "" then
      match setup ("/dev/infiniband/" ++ names.IsSMName) with
      | .error e => (.error e, ["/dev/infiniband/" ++ names.IsSMName])
      | .ok _ => addMADDev setup names ["/dev/infiniband/" ++ names.IsSMName]
    else addMADDev setup names []

/-- Specification-side list of sub-device source paths, in the order the
provisioner visits them: subnet manager, management datagram, verbs; empty
names contribute nothing. -/
def ibSubSources (names : PortIBNames) : List String :=
  (if names.IsSMName != "" then ["/dev/infiniband/" ++ names.IsSMName] else []) ++
    ((if names.MADName != "" then ["/dev/infiniband/" ++ names.MADName] else []) ++
      (if names.VerbName != "" then ["/dev/infiniband/" ++ names.VerbName] else []))

/-- Specification-side runner following the spec words: issue the setup calls
in order and stop at the first error, reporting it. -/
def failFastRun (setup : String → Except GoErr Unit) : List String → List String →
    Except GoErr Unit × List String
  | [], calls => (.ok (), calls)
  | s :: rest, calls =>
    match setup s with
    | .error e => (.error e, calls ++ [s])
    | .ok _ => failFastRun setup rest (calls ++ [s])

/-- Splitting a fail-fast run over an append of source lists. -/
theorem failFastRun_append (setup : String → Except GoErr Unit) (l1 l2 : List String) :
    ∀ calls, failFastRun setup (l1 ++ l2) calls =
      match failFastRun setup l1 calls with
      | (Except.ok _, c1) => failFastRun setup l2 c1
      | (Except.error e, c1) => (Except.error e, c1) := by
  induction l1 with
  | nil => intro calls; simp [failFastRun]
  | cons s rest ih =>
    intro calls
    simp only [List.cons_append, failFastRun]
    cases setup s with
    | error e => rfl
    | ok u => exact ih (calls ++ [s])

/-- The verbs step equals a fail-fast run over its source list. -/
theorem addVerbDev_eq_failFast (setup : String → Except GoErr Unit) (names : PortIBNames)
    (calls : List String) :
    addVerbDev setup names calls =
      failFastRun setup
        (if names.VerbName != "" then ["/dev/infiniband/" ++ names.VerbName] else []) calls := by
  by_cases h : (names.VerbName != "") = true
  · rw [addVerbDev, if_pos h, if_pos h]
    cases hs : setup ("/dev/infiniband/" ++ names.VerbName) <;> simp [failFastRun, hs]
  · rw [addVerbDev, if_neg h, if_neg h]
    rfl

/-- The management-datagram step equals a fail-fast run over its source list
followed by the verbs list. -/
theorem addMADDev_eq_failFast (setup : String → Except GoErr Unit) (names : PortIBNames)
    (calls : List String) :
    addMADDev setup names calls =
      failFastRun setup
        ((if names.MADName != "" then ["/dev/infiniband/" ++ names.MADName] else []) ++
          (if names.VerbName != "" then ["/dev/infiniband/" ++ names.VerbName] else []))
        calls := by
  rw [failFastRun_append]
  by_cases h : (names.MADName != "") = true
  · rw [addMADDev, if_pos h, if_pos h]
    cases hs : setup ("/dev/infiniband/" ++ names.MADName) <;>
      simp [failFastRun, hs, addVerbDev_eq_failFast]
  · rw [addMADDev, if_neg h, if_neg h]
    simp [failFastRun, addVerbDev_eq_failFast]

/-- Example PF port of C9: subnet-manager and verbs names set,
management-datagram unset. -/
def pfExample : CardPort := ⟨"mlx0", "infiniband", 1, some ⟨"issm0", "", "uverbs0"⟩⟩

/-- Example port with no InfiniBand payload. -/
def noPayloadPort : CardPort := ⟨"eth0", "infiniband", 1, none⟩

/-- C9: infinibandAddDevices fails immediately when the port carries no
InfiniBand payload; otherwise it equals a fail-fast run over the non-empty
sub-interface sources in the order subnet manager, management datagram,
verbs — one setup call each, stopping at the first error; and for the
example PF with subnet-manager and verbs names set and management-datagram
unset, exactly two setup calls are issued. -/
theorem infinibandAddDevices_failfast (setup : String → Except GoErr Unit)
    (ibDev : CardPort) :
    (ibDev.Infiniband = none →
      infinibandAddDevices setup ibDev =
        (Except.error ⟨"No infiniband devices supplied"⟩, [])) ∧
    (∀ names, ibDev.Infiniband = some names →
      infinibandAddDevices setup ibDev = failFastRun setup (ibSubSources names) []) ∧
    (infinibandAddDevices (fun _ => Except.ok ()) pfExample).2.length = 2 := by
  refine ⟨?_, ?_, by decide⟩
  · intro h
    rw [infinibandAddDevices, h]
  · intro names h
    rw [infinibandAddDevices, h, ibSubSources, failFastRun_append]
    rcases Bool.eq_false_or_eq_true (names.IsSMName != "") with hsm | hsm
    · cases hs : setup ("/dev/infiniband/" ++ names.IsSMName) with
      | error e => simp [hsm, failFastRun, hs]
      | ok u => simp [hsm, failFastRun, hs, addMADDev_eq_failFast]
    · simp [hsm, failFastRun, addMADDev_eq_failFast]

/-- Witness applying infinibandAddDevices_failfast at the no-payload port. -/
theorem infinibandAddDevices_failfast_witness :
    infinibandAddDevices (fun _ => Except.ok ()) noPayloadPort =
      (Except.error ⟨"No infiniband devices supplied"⟩, []) :=
  (infinibandAddDevices_failfast (fun _ => Except.ok ()) noPayloadPort).1 rfl

/-
Embedding of infinibandSetDevMAC.  NetworkGetDevMAC and NetworkSetDevMAC are
oracles; the result records the outcome, and the list of addresses passed to
NetworkSetDevMAC.  Go string slicing curHwaddr[:36] is not total: slicing past
the end of the string panics, modelled as the none outcome.
-/

/-- Go string slice s[:n]: defined only when n does not exceed the length. -/
def goStringTake (s : String) (n : Nat) : Option String :=
  if n ≤ s.length then some (s.take n) else none

/-- Embedding of infinibandSetDevMAC: 59-character addresses are passed
through to NetworkSetDevMAC unchanged; 23-character addresses are appended
to the first 36 characters of the current address read via NetworkGetDevMAC
(propagating a read error, and panicking — none — when the current address
is shorter than 36); any other length is an invalid-length error with no
external call. -/
def infinibandSetDevMAC (netGet : Except GoErr String)
    (netSet : String → Except GoErr Unit) (hwaddr : String) :
    Option (Except GoErr Unit × List String) :=
  if hwaddr.length = 59 then some (netSet hwaddr, [hwaddr])
  else if hwaddr.length = 23 then
    match netGet with
    | .error e => some (.error e, [])
    | .ok curHwaddr =>
      match goStringTake curHwaddr 36 with
      | none => none
      | some front => some (netSet (front ++ hwaddr), [front ++ hwaddr])
  else some (.error ⟨"Invalid length"⟩, [])

/-- C3: a 59-character address is passed unchanged to the external set
operation; a 23-character address is composed as the first 36 characters of
the current address followed by the requested address and passed to the set
operation, a get failure being propagated with no set call; any other length
fails with the invalid-length error and no external call, whatever the
oracles return. -/
theorem infinibandSetDevMAC_spec (netGet : Except GoErr String)
    (netSet : String → Except GoErr Unit) (hwaddr : String) :
    (hwaddr.length = 59 →
      infinibandSetDevMAC netGet netSet hwaddr = some (netSet hwaddr, [hwaddr])) ∧
    (∀ e, hwaddr.length = 23 → netGet = Except.error e →
      infinibandSetDevMAC netGet netSet hwaddr = some (Except.error e, [])) ∧
    (∀ curHwaddr, hwaddr.length = 23 → netGet = Except.ok curHwaddr →
      36 ≤ curHwaddr.length →
      infinibandSetDevMAC netGet netSet hwaddr =
        some (netSet (curHwaddr.take 36 ++ hwaddr),
          [curHwaddr.take 36 ++ hwaddr])) ∧
    (hwaddr.length ≠ 59 → hwaddr.length ≠ 23 →
      infinibandSetDevMAC netGet netSet hwaddr =
        some (Except.error ⟨"Invalid length"⟩, [])) := by
  refine ⟨?_, ?_, ?_, ?_⟩
  · intro h59
    rw [infinibandSetDevMAC.eq_def, if_pos h59]
  · intro e h23 hget
    have h59 : ¬ hwaddr.length = 59 := by rw [h23]; decide
    rw [infinibandSetDevMAC.eq_def, if_neg h59, if_pos h23, hget]
  · intro curHwaddr h23 hget hlen
    have h59 : ¬ hwaddr.length = 59 := by rw [h23]; decide
    rw [infinibandSetDevMAC.eq_def, if_neg h59, if_pos h23, hget]
    simp [goStringTake, hlen]
  · intro h59 h23
    rw [infinibandSetDevMAC.eq_def, if_neg h59, if_neg h23]

set_option maxRecDepth 4000 in
/-- Witness applying infinibandSetDevMAC_spec: splicing a short-form address
onto a concrete 59-character current address. -/
theorem infinibandSetDevMAC_spec_witness :
    infinibandSetDevMAC
        (Except.ok "a0:00:0f:c0:fe:80:00:00:00:00:00:00:4a:c8:f9:1b:aa:57:ef:19")
        (fun _ => Except.ok ()) "11:22:33:44:55:66:77:88" =
      some (Except.ok (),
        ["a0:00:0f:c0:fe:80:00:00:00:00:00:00:11:22:33:44:55:66:77:88"]) := by
  have h := (infinibandSetDevMAC_spec
      (Except.ok "a0:00:0f:c0:fe:80:00:00:00:00:00:00:4a:c8:f9:1b:aa:57:ef:19")
      (fun _ => Except.ok ()) "11:22:33:44:55:66:77:88").2.2.1
      "a0:00:0f:c0:fe:80:00:00:00:00:00:00:4a:c8:f9:1b:aa:57:ef:19"
      (by decide) rfl (by decide)
  rw [h]
  decide

/-- C10: in the 23-character branch the slice of the current address has no
length guard: when the get oracle returns a current address shorter than 36
characters the operation panics (none); with at least 36 characters it does
not panic. -/
theorem infinibandSetDevMAC_slice_safety (netGet : Except GoErr String)
    (netSet : String → Except GoErr Unit) (hwaddr curHwaddr : String)
    (h23 : hwaddr.length = 23) (hget : netGet = Except.ok curHwaddr) :
    (curHwaddr.length < 36 → infinibandSetDevMAC netGet netSet hwaddr = none) ∧
    (36 ≤ curHwaddr.length → (infinibandSetDevMAC netGet netSet hwaddr).isSome = true) := by
  have h59 : ¬ hwaddr.length = 59 := by rw [h23]; decide
  constructor
  · intro hshort
    rw [infinibandSetDevMAC.eq_def, if_neg h59, if_pos h23, hget]
    have : ¬ 36 ≤ curHwaddr.length := by omega
    simp [goStringTake, this]
  · intro hlong
    rw [infinibandSetDevMAC.eq_def, if_neg h59, if_pos h23, hget]
    simp [goStringTake, hlong]

/-- Witness applying infinibandSetDevMAC_slice_safety at a concrete short
current address: the slice panics. -/
theorem infinibandSetDevMAC_slice_safety_witness :
    infinibandSetDevMAC (Except.ok "4a:c8:f9:1b:aa:57:ef:19") (fun _ => Except.ok ())
        "11:22:33:44:55:66:77:88" = none :=
  (infinibandSetDevMAC_slice_safety (Except.ok "4a:c8:f9:1b:aa:57:ef:19")
      (fun _ => Except.ok ()) "11:22:33:44:55:66:77:88" "4a:c8:f9:1b:aa:57:ef:19"
      (by decide) rfl).1 (by decide)

/-
Embedding of the GUID accessor.  The per-VF sysfs exposure point for one
GUID (node or port) is modelled as oracle state: readable says whether the
file read succeeds, value is the trimmed text the getter returns.  The
netlink write is an oracle result; a successful write makes the requested
GUID the value a subsequent read returns.  The returned triple is the call
result, the hardware state afterwards, and the number of link-control
writes performed.
-/

/-- State of one per-VF GUID sysfs exposure point. -/
structure VFGuidHW where
  readable : Bool
  value : String
deriving DecidableEq, Repr

/-- Embedding of infinibandGetVFNodeGUID / infinibandGetVFPortGUID on the
modelled state: the trimmed file content, or a read error. -/
def infinibandGetVFGUID (hw : VFGuidHW) : Except GoErr String :=
  if hw.readable then .ok hw.value else .error ⟨"sysfs read failed"⟩

/-- Embedding of infinibandSetVFNodeGUID: read the current GUID (propagating
a read error); when it differs from the requested one, parse the requested
GUID with net.ParseMAC (failing on a parse error) and perform the link
write, propagating its error. -/
def infinibandSetVFNodeGUID (writeRes : Except GoErr Unit) (hw : VFGuidHW)
    (nodeGUID : String) : Except GoErr Unit × VFGuidHW × Nat :=
  match infinibandGetVFGUID hw with
  | .error e => (.error e, hw, 0)
  | .ok curGUID =>
    if curGUID != nodeGUID then
      if goParseMACOk nodeGUID then
        match writeRes with
        | .error e => (.error e, hw, 1)
        | .ok _ => (.ok (), { hw with value := nodeGUID }, 1)
      else (.error ⟨"Failed parsing node_guid " ++ nodeGUID⟩, hw, 0)
    else (.ok (), hw, 0)

/-- Embedding of infinibandSetVFPortGUID, identical in structure to the
node-GUID setter. -/
def infinibandSetVFPortGUID (writeRes : Except GoErr Unit) (hw : VFGuidHW)
    (portGUID : String) : Except GoErr Unit × VFGuidHW × Nat :=
  match infinibandGetVFGUID hw with
  | .error e => (.error e, hw, 0)
  | .ok curGUID =>
    if curGUID != portGUID then
      if goParseMACOk portGUID then
        match writeRes with
        | .error e => (.error e, hw, 1)
        | .ok _ => (.ok (), { hw with value := portGUID }, 1)
      else (.error ⟨"Failed parsing port_guid " ++ portGUID⟩, hw, 0)
    else (.ok (), hw, 0)

/-- C4: when the read succeeds and the current GUID already equals the
requested one, both setters succeed with zero link writes and unchanged
state; consequently two consecutive calls with the same requested GUID
(starting from a readable state whose value differs from it, with the GUID
parseable and the first write succeeding) perform exactly one link write in
total, for the node setter and for the port setter alike. -/
theorem infinibandSetVFGUID_idempotent (writeRes : Except GoErr Unit) (hw : VFGuidHW)
    (g : String) :
    (hw.readable = true → hw.value = g →
      infinibandSetVFNodeGUID writeRes hw g = (Except.ok (), hw, 0) ∧
      infinibandSetVFPortGUID writeRes hw g = (Except.ok (), hw, 0)) ∧
    (hw.readable = true → hw.value ≠ g → goParseMACOk g = true →
      ((infinibandSetVFNodeGUID (Except.ok ()) hw g).2.2 +
        (infinibandSetVFNodeGUID writeRes
          (infinibandSetVFNodeGUID (Except.ok ()) hw g).2.1 g).2.2 = 1) ∧
      ((infinibandSetVFPortGUID (Except.ok ()) hw g).2.2 +
        (infinibandSetVFPortGUID writeRes
          (infinibandSetVFPortGUID (Except.ok ()) hw g).2.1 g).2.2 = 1)) := by
  constructor
  · intro hread heq
    constructor
    · rw [infinibandSetVFNodeGUID.eq_def, infinibandGetVFGUID, if_pos hread]
      simp [heq]
    · rw [infinibandSetVFPortGUID.eq_def, infinibandGetVFGUID, if_pos hread]
      simp [heq]
  · intro hread hne hparse
    have hbne : (hw.value != g) = true := by simp [hne]
    constructor
    · have h1 : infinibandSetVFNodeGUID (Except.ok ()) hw g =
          (Except.ok (), { hw with value := g }, 1) := by
        rw [infinibandSetVFNodeGUID.eq_def, infinibandGetVFGUID, if_pos hread]
        simp [hbne, hparse]
      rw [h1]
      rw [infinibandSetVFNodeGUID.eq_def, infinibandGetVFGUID.eq_def]
      simp [hread]
    · have h1 : infinibandSetVFPortGUID (Except.ok ()) hw g =
          (Except.ok (), { hw with value := g }, 1) := by
        rw [infinibandSetVFPortGUID.eq_def, infinibandGetVFGUID, if_pos hread]
        simp [hbne, hparse]
      rw [h1]
      rw [infinibandSetVFPortGUID.eq_def, infinibandGetVFGUID.eq_def]
      simp [hread]

/-- Witness applying infinibandSetVFGUID_idempotent: two calls requesting the
same GUID from a differing initial value perform exactly one write. -/
theorem infinibandSetVFGUID_idempotent_witness :
    ((infinibandSetVFNodeGUID (Except.ok ()) ⟨true, "00:00:00:00:00:00:00:00"⟩
        "4a:c8:f9:1b:aa:57:ef:19").2.2 +
      (infinibandSetVFNodeGUID (Except.ok ())
        (infinibandSetVFNodeGUID (Except.ok ()) ⟨true, "00:00:00:00:00:00:00:00"⟩
          "4a:c8:f9:1b:aa:57:ef:19").2.1 "4a:c8:f9:1b:aa:57:ef:19").2.2 = 1) ∧
    ((infinibandSetVFPortGUID (Except.ok ()) ⟨true, "00:00:00:00:00:00:00:00"⟩
        "4a:c8:f9:1b:aa:57:ef:19").2.2 +
      (infinibandSetVFPortGUID (Except.ok ())
        (infinibandSetVFPortGUID (Except.ok ()) ⟨true, "00:00:00:00:00:00:00:00"⟩
          "4a:c8:f9:1b:aa:57:ef:19").2.1 "4a:c8:f9:1b:aa:57:ef:19").2.2 = 1) :=
  (infinibandSetVFGUID_idempotent (Except.ok ()) ⟨true, "00:00:00:00:00:00:00:00"⟩
    "4a:c8:f9:1b:aa:57:ef:19").2 rfl (by decide) (by decide)

/-
Embedding of the lifecycle state recorder.  The volatile store is a Go
map[string]string, modelled as a total function from keys to values in
which the empty string is the absent value (Go map indexing returns the
zero value for a missing key, and the code treats "" as absent).
-/

/-- Go map write volatile[k] = v on the function-modelled store. -/
def storeSet (m : String → String) (k v : String) : String → String :=
  fun k2 => if k2 = k then v else m k2

/-- Embedding of infinibandSnapshotGUIDs.  The two GUID reads are oracle
results (infinibandGetVFNodeGUID and infinibandGetVFPortGUID); the VF index
is written under last_state.vf.id before either read, then both GUIDs are
written together only when both reads succeed. -/
def infinibandSnapshotGUIDs (nodeRes portRes : Except GoErr String) (vfID : Int)
    (volatile : String → String) : Except GoErr Unit × (String → String) :=
  let v1 := storeSet volatile "last_state.vf.id" (toString vfID)
  match nodeRes with
  | .error e => (.error e, v1)
  | .ok nodeGUID =>
    match portRes with
    | .error e => (.error e, v1)
    | .ok portGUID =>
      (.ok (),
        storeSet (storeSet v1 "last_state.vf.node_guid" nodeGUID)
          "last_state.vf.port_guid" portGUID)

/-- C5: the VF index is recorded under last_state.vf.id before either GUID
read, so when either read fails the snapshot returns that error with the
store holding the new VF index and the two GUID keys unchanged; the two GUID
keys are written, both together, exactly when both reads succeed. -/
theorem infinibandSnapshotGUIDs_spec (nodeRes portRes : Except GoErr String)
    (vfID : Int) (volatile : String → String) :
    (∀ e, (nodeRes = Except.error e ∨
        (∃ n, nodeRes = Except.ok n ∧ portRes = Except.error e)) →
      (infinibandSnapshotGUIDs nodeRes portRes vfID volatile).1 = Except.error e ∧
      (infinibandSnapshotGUIDs nodeRes portRes vfID volatile).2 "last_state.vf.id" =
        toString vfID ∧
      (infinibandSnapshotGUIDs nodeRes portRes vfID volatile).2 "last_state.vf.node_guid" =
        volatile "last_state.vf.node_guid" ∧
      (infinibandSnapshotGUIDs nodeRes portRes vfID volatile).2 "last_state.vf.port_guid" =
        volatile "last_state.vf.port_guid") ∧
    (∀ n p, nodeRes = Except.ok n → portRes = Except.ok p →
      (infinibandSnapshotGUIDs nodeRes portRes vfID volatile).1 = Except.ok () ∧
      (infinibandSnapshotGUIDs nodeRes portRes vfID volatile).2 "last_state.vf.id" =
        toString vfID ∧
      (infinibandSnapshotGUIDs nodeRes portRes vfID volatile).2 "last_state.vf.node_guid" =
        n ∧
      (infinibandSnapshotGUIDs nodeRes portRes vfID volatile).2 "last_state.vf.port_guid" =
        p) := by
  constructor
  · intro e he
    rcases he with hne | ⟨n, hok, hpe⟩
    · rw [infinibandSnapshotGUIDs.eq_def, hne]
      refine ⟨rfl, by simp [storeSet], by simp [storeSet], by simp [storeSet]⟩
    · rw [infinibandSnapshotGUIDs.eq_def, hok, hpe]
      refine ⟨rfl, by simp [storeSet], by simp [storeSet], by simp [storeSet]⟩
  · intro n p hn hp
    rw [infinibandSnapshotGUIDs.eq_def, hn, hp]
    refine ⟨rfl, by simp [storeSet], by simp [storeSet], by simp [storeSet]⟩

/-- Witness applying infinibandSnapshotGUIDs_spec with a failing node read:
the store keeps the new VF index while the GUID keys stay absent. -/
theorem infinibandSnapshotGUIDs_spec_witness :
    (infinibandSnapshotGUIDs (Except.error ⟨"read failed"⟩)
        (Except.ok "4a:c8:f9:1b:aa:57:ef:19") 7 (fun _ => "")).1 =
      Except.error ⟨"read failed"⟩ ∧
    (infinibandSnapshotGUIDs (Except.error ⟨"read failed"⟩)
        (Except.ok "4a:c8:f9:1b:aa:57:ef:19") 7 (fun _ => "")).2 "last_state.vf.id" =
      "7" ∧
    (infinibandSnapshotGUIDs (Except.error ⟨"read failed"⟩)
        (Except.ok "4a:c8:f9:1b:aa:57:ef:19") 7
        (fun _ => "")).2 "last_state.vf.node_guid" = "" ∧
    (infinibandSnapshotGUIDs (Except.error ⟨"read failed"⟩)
        (Except.ok "4a:c8:f9:1b:aa:57:ef:19") 7
        (fun _ => "")).2 "last_state.vf.port_guid" = "" :=
  (infinibandSnapshotGUIDs_spec (Except.error ⟨"read failed"⟩)
    (Except.ok "4a:c8:f9:1b:aa:57:ef:19") 7 (fun _ => "")).1 ⟨"read failed"⟩
    (Or.inl rfl)

/-
Embedding of infinibandRestoreGUIDs.  The two GUID setters are oracles keyed
by VF index and GUID text; the returned pair carries the overall result and
the ordered list of restore attempts actually made.
-/

/-- One restore attempt: a node-GUID or port-GUID set call. -/
inductive RestoreCall where
  | node (vf : Nat) (g : String)
  | port (vf : Nat) (g : String)
deriving DecidableEq, Repr

/-- Numeric value of a list of decimal digit characters. -/
def decDigitsVal (cs : List Char) : Nat :=
  cs.foldl (fun a c => a * 10 + (c.toNat - 48)) 0

/-- Success predicate and value of Go strconv.ParseUint(s, 10, 32): a
non-empty all-digit string whose value fits in 32 bits. -/
def goParseUint32 (s : String) : Option Nat :=
  if s.data ≠ [] ∧ s.data.all Char.isDigit then
    if decDigitsVal s.data < 4294967296 then some (decDigitsVal s.data) else none
  else none

/-- Error wrapping of a failed node-GUID restore, naming device, VF index and
target GUID. -/
def restoreNodeErr (hostName : String) (vfID : Nat) (g : String) (e : GoErr) : GoErr :=
  ⟨"Failed to restore device " ++ hostName ++ " (VF " ++ toString vfID ++
    ") node_guid to " ++ g ++ ": " ++ e.msg⟩

/-- Error wrapping of a failed port-GUID restore, naming device, VF index and
target GUID. -/
def restorePortErr (hostName : String) (vfID : Nat) (g : String) (e : GoErr) : GoErr :=
  ⟨"Failed to restore device " ++ hostName ++ " (VF " ++ toString vfID ++
    ") port_guid to " ++ g ++ ": " ++ e.msg⟩

/-- Port-GUID half of infinibandRestoreGUIDs, reached only after the
node-GUID half did not return. -/
def restorePortStep (setPort : Nat → String → Except GoErr Unit) (hostName : String)
    (volatile : String → String) (vfID : Nat) (calls : List RestoreCall) :
    Except GoErr Unit × List RestoreCall :=
  if volatile "last_state.vf.port_guid" != "" then
    match setPort vfID (volatile "last_state.vf.port_guid") with
    | .error e =>
      (.error (restorePortErr hostName vfID (volatile "last_state.vf.port_guid") e),
        calls ++ [RestoreCall.port vfID (volatile "last_state.vf.port_guid")])
    | .ok _ => (.ok (), calls ++ [RestoreCall.port vfID (volatile "last_state.vf.port_guid")])
  else (.ok (), calls)

/-- Embedding of infinibandRestoreGUIDs: nothing recorded under
last_state.vf.id means a silent no-op; a malformed index is a conversion
error; a recorded node GUID is restored first and its failure returns
immediately; the recorded port GUID is restored afterwards. -/
def infinibandRestoreGUIDs (setNode setPort : Nat → String → Except GoErr Unit)
    (hostName : String) (volatile : String → String) :
    Except GoErr Unit × List RestoreCall :=
  if volatile "last_state.vf.id" != "" then
    match goParseUint32 (volatile "last_state.vf.id") with
    | none =>
      (.error ⟨"Failed to convert vfID for " ++ hostName ++ " vfID " ++
        volatile "last_state.vf.id"⟩, [])
    | some vfID =>
      if volatile "last_state.vf.node_guid" != "" then
        match setNode vfID (volatile "last_state.vf.node_guid") with
        | .error e =>
          (.error (restoreNodeErr hostName vfID (volatile "last_state.vf.node_guid") e),
            [RestoreCall.node vfID (volatile "last_state.vf.node_guid")])
        | .ok _ =>
          restorePortStep setPort hostName volatile vfID
            [RestoreCall.node vfID (volatile "last_state.vf.node_guid")]
      else restorePortStep setPort hostName volatile vfID []
  else (.ok (), [])

/-- C8: with nothing recorded under last_state.vf.id the restore performs no
restore attempt at all and returns success, whatever the oracles and the
rest of the store contain. -/
theorem infinibandRestoreGUIDs_noop (setNode setPort : Nat → String → Except GoErr Unit)
    (hostName : String) (volatile : String → String)
    (h : volatile "last_state.vf.id" = "") :
    infinibandRestoreGUIDs setNode setPort hostName volatile = (Except.ok (), []) := by
  rw [infinibandRestoreGUIDs.eq_def, h]
  rfl

/-- Witness applying infinibandRestoreGUIDs_noop at the empty store. -/
theorem infinibandRestoreGUIDs_noop_witness :
    infinibandRestoreGUIDs (fun _ _ => Except.error ⟨"boom"⟩)
      (fun _ _ => Except.error ⟨"boom"⟩) "ib0" (fun _ => "") = (Except.ok (), []) :=
  infinibandRestoreGUIDs_noop _ _ "ib0" (fun _ => "") rfl

/-- Store of the C1 counterexample: VF index, node GUID and port GUID all
recorded. -/
def cxRestoreVol : String → String := fun k =>
  if k = "last_state.vf.id" then "3"
  else if k = "last_state.vf.node_guid" then "4a:c8:f9:1b:aa:57:ef:19"
  else if k = "last_state.vf.port_guid" then "4a:c8:f9:1b:aa:57:ef:20"
  else ""

/-- C1 counterexample: with VF index, node GUID and port GUID all present in
the store, a failing node-GUID restore makes infinibandRestoreGUIDs return
immediately: the only restore attempt made is the node one — the port-GUID
restore is not attempted even though its set oracle would succeed — and the
single returned error is the wrapped node error. -/
theorem infinibandRestoreGUIDs_independence_counterexample :
    (infinibandRestoreGUIDs (fun _ _ => Except.error ⟨"node write failed"⟩)
        (fun _ _ => Except.ok ()) "ib0" cxRestoreVol).2 =
      [RestoreCall.node 3 "4a:c8:f9:1b:aa:57:ef:19"] ∧
    (infinibandRestoreGUIDs (fun _ _ => Except.error ⟨"node write failed"⟩)
        (fun _ _ => Except.ok ()) "ib0" cxRestoreVol).1 =
      Except.error (restoreNodeErr "ib0" 3 "4a:c8:f9:1b:aa:57:ef:19"
        ⟨"node write failed"⟩) := by
  constructor
  · decide
  · decide

/-- C1 amended: the two restores are sequential, not independent.  With a
well-formed recorded VF index: a failing node-GUID restore makes the
function return that failure, wrapped with device, VF and GUID context,
with the port-GUID restore not attempted; when the node-GUID restore is not
needed (no recorded node GUID) or succeeds, the port-GUID half runs, and it
attempts the port restore exactly when a port GUID is recorded, reporting a
failure with its own wrapped error. -/
theorem infinibandRestoreGUIDs_sequential_amended
    (setNode setPort : Nat → String → Except GoErr Unit)
    (hostName : String) (volatile : String → String) (vfID : Nat)
    (hid : volatile "last_state.vf.id" ≠ "")
    (hparse : goParseUint32 (volatile "last_state.vf.id") = some vfID) :
    (∀ e, volatile "last_state.vf.node_guid" ≠ "" →
      setNode vfID (volatile "last_state.vf.node_guid") = Except.error e →
      infinibandRestoreGUIDs setNode setPort hostName volatile =
        (Except.error
            (restoreNodeErr hostName vfID (volatile "last_state.vf.node_guid") e),
          [RestoreCall.node vfID (volatile "last_state.vf.node_guid")])) ∧
    (volatile "last_state.vf.node_guid" ≠ "" →
      setNode vfID (volatile "last_state.vf.node_guid") = Except.ok () →
      infinibandRestoreGUIDs setNode setPort hostName volatile =
        restorePortStep setPort hostName volatile vfID
          [RestoreCall.node vfID (volatile "last_state.vf.node_guid")]) ∧
    (volatile "last_state.vf.node_guid" = "" →
      infinibandRestoreGUIDs setNode setPort hostName volatile =
        restorePortStep setPort hostName volatile vfID []) ∧
    (∀ calls, volatile "last_state.vf.port_guid" ≠ "" →
      (restorePortStep setPort hostName volatile vfID calls).2 =
        calls ++ [RestoreCall.port vfID (volatile "last_state.vf.port_guid")]) ∧
    (∀ calls e, volatile "last_state.vf.port_guid" ≠ "" →
      setPort vfID (volatile "last_state.vf.port_guid") = Except.error e →
      (restorePortStep setPort hostName volatile vfID calls).1 =
        Except.error
          (restorePortErr hostName vfID (volatile "last_state.vf.port_guid") e)) := by
  have hidb : (volatile "last_state.vf.id" != "") = true := by simpa using hid
  refine ⟨?_, ?_, ?_, ?_, ?_⟩
  · intro e hng hset
    have hngb : (volatile "last_state.vf.node_guid" != "") = true := by simpa using hng
    rw [infinibandRestoreGUIDs.eq_def]
    simp [hidb, hparse, hngb, hset]
  · intro hng hset
    have hngb : (volatile "last_state.vf.node_guid" != "") = true := by simpa using hng
    rw [infinibandRestoreGUIDs.eq_def]
    simp [hidb, hparse, hngb, hset]
  · intro hng
    have hngb : (volatile "last_state.vf.node_guid" != "") = false := by simpa using hng
    rw [infinibandRestoreGUIDs.eq_def]
    simp [hidb, hparse, hngb]
  · intro calls hpg
    have hpgb : (volatile "last_state.vf.port_guid" != "") = true := by simpa using hpg
    rw [restorePortStep.eq_def]
    cases hs : setPort vfID (volatile "last_state.vf.port_guid") <;> simp [hpgb, hs]
  · intro calls e hpg hset
    have hpgb : (volatile "last_state.vf.port_guid" != "") = true := by simpa using hpg
    rw [restorePortStep.eq_def]
    simp [hpgb, hset]

/-- Witness applying infinibandRestoreGUIDs_sequential_amended on the
concrete store: with a succeeding node restore, the function continues into
the port half carrying the node attempt. -/
theorem infinibandRestoreGUIDs_sequential_amended_witness :
    infinibandRestoreGUIDs (fun _ _ => Except.ok ()) (fun _ _ => Except.ok ())
        "ib0" cxRestoreVol =
      restorePortStep (fun _ _ => Except.ok ()) "ib0" cxRestoreVol 3
        [RestoreCall.node 3 "4a:c8:f9:1b:aa:57:ef:19"] :=
  (infinibandRestoreGUIDs_sequential_amended (fun _ _ => Except.ok ())
    (fun _ _ => Except.ok ()) "ib0" cxRestoreVol 3 (by decide) (by decide)).2.1
    (by decide) rfl
